import Mathlib

/-!
Shallow embedding of the customer-dashboard pipeline in
`src/streamlit-app.py`: dataset synthesis (`simulate_dataset`),
the three-predicate filter stage (`filtered_df`), and the aggregation
stage (scalar metrics, correlation matrix, `pd.cut` age buckets and the
`groupby` pivot).  Rows are records with exact-rational numeric fields;
pandas NaN results are modelled as `Option.none`.
-/

namespace App

/-- One row of the synthesized DataFrame (columns CustomerID, Age, Income,
PurchaseAmount, City, ProductCategory). -/
structure Record where
  customerID : Nat
  age : Nat
  income : ℚ
  purchaseAmount : ℚ
  city : String
  productCategory : String
deriving DecidableEq, Repr

/-- The sidebar filter selections: the age slider pair and the two
selectboxes, whose first option is the sentinel "All". -/
structure FilterCriteria where
  ageMin : Nat
  ageMax : Nat
  city : String
  productCategory : String
deriving DecidableEq, Repr

/-- Line 53: `df[(df['Age'] >= age_range[0]) & (df['Age'] <= age_range[1])]`. -/
def filterAge (df : List Record) (lo hi : Nat) : List Record :=
  df.filter fun r => decide (lo ≤ r.age) && decide (r.age ≤ hi)

/-- Lines 55-56: `if selected_city != "All": filtered_df = filtered_df[filtered_df['City'] == selected_city]`. -/
def filterCity (df : List Record) (c : String) : List Record :=
  if c ≠ "All" then df.filter fun r => r.city == c else df

/-- Lines 58-59: `if product_category != "All": filtered_df = filtered_df[filtered_df['ProductCategory'] == product_category]`. -/
def filterCategory (df : List Record) (p : String) : List Record :=
  if p ≠ "All" then df.filter fun r => r.productCategory == p else df

/-- Lines 53-59: the three boolean-mask filters applied in sequence to
produce `filtered_df`. -/
def applyFilters (df : List Record) (cr : FilterCriteria) : List Record :=
  filterCategory (filterCity (filterAge df cr.ageMin cr.ageMax) cr.city) cr.productCategory

/-- The conjunction of the three filter predicates on a single record. -/
def matchesCriteria (cr : FilterCriteria) (r : Record) : Bool :=
  (decide (cr.ageMin ≤ r.age) && decide (r.age ≤ cr.ageMax))
    && (cr.city == "All" || r.city == cr.city)
    && (cr.productCategory == "All" || r.productCategory == cr.productCategory)

theorem applyFilters_eq_filter (df : List Record) (cr : FilterCriteria) :
    applyFilters df cr = df.filter (matchesCriteria cr) := by
  unfold applyFilters filterCategory filterCity filterAge matchesCriteria
  by_cases hc : cr.city = "All" <;> by_cases hp : cr.productCategory = "All" <;>
    simp [hc, hp, List.filter_filter] <;>
    exact List.filter_congr fun r _ => by
      cases hlo : decide (cr.ageMin ≤ r.age) <;>
        cases hhi : decide (r.age ≤ cr.ageMax) <;>
        cases hcy : r.city == cr.city <;>
        cases hpc : r.productCategory == cr.productCategory <;>
        simp_all [hc, hp]

theorem mem_applyFilters (df : List Record) (cr : FilterCriteria) (r : Record) :
    r ∈ applyFilters df cr ↔ r ∈ df ∧ matchesCriteria cr r = true := by
  rw [applyFilters_eq_filter]; exact List.mem_filter

/-- The five cities of line 21. -/
def cityChoices : List String := ["New York", "London", "Tokyo", "Paris", "Sydney"]

/-- The five product categories of line 22. -/
def productChoices : List String := ["Electronics", "Clothing", "Books", "Home", "Food"]

/-- `np.random.randint(lo, hi)`: a uniform integer in `[lo, hi)`, modelled by
reducing an arbitrary draw `x` into the half-open range. -/
def randint (lo hi : Nat) (x : Nat) : Nat := lo + x % (hi - lo)

/-- `random.choice(l)`: an element of `l` picked by an arbitrary draw `x`. -/
def choice (l : List String) (x : Nat) : String := l.getD (x % l.length) ""

/-- The random draws consumed by one run of `simulate_dataset`, one stream
per generated column (ages and the two categorical picks are raw integer
draws; income and purchase amount are the sampled values themselves, since
no claim constrains their distributions). -/
structure RandomState where
  ages : Nat → Nat
  incomes : Nat → ℚ
  purchases : Nat → ℚ
  cities : Nat → Nat
  categories : Nat → Nat

/-- Lines 15-24: `simulate_dataset(num_rows)` builds the DataFrame with
`CustomerID = range(1, num_rows+1)`, `Age = np.random.randint(18, 70, ...)`,
`Income`/`PurchaseAmount` drawn per row, and `City`/`ProductCategory` chosen
from the two five-element lists. -/
def simulate_dataset (numRows : Nat) (rs : RandomState) : List Record :=
  (List.range numRows).map fun i =>
    { customerID := i + 1
      age := randint 18 70 (rs.ages i)
      income := rs.incomes i
      purchaseAmount := rs.purchases i
      city := choice cityChoices (rs.cities i)
      productCategory := choice productChoices (rs.categories i) }

/-- `simulate_dataset` over an `Int` row count: `np.random.randint` raises
`ValueError` on a negative size, and there is no other validation, so a
nonnegative count (zero included) returns the generated rows. -/
def simulate_dataset_int (numRows : Int) (rs : RandomState) :
    Except String (List Record) :=
  if numRows < 0 then Except.error "negative dimensions are not allowed"
  else Except.ok (simulate_dataset numRows.toNat rs)

/-- `Series.mean()`: NaN (here `none`) on an empty series, otherwise the
arithmetic mean. -/
def seriesMean (l : List ℚ) : Option ℚ :=
  if l.isEmpty then none else some (l.sum / l.length)

/-- `Series.sum()`: pandas returns 0 on an empty series, never NaN for
NaN-free input. -/
def seriesSum (l : List ℚ) : ℚ := l.sum

/-- `Series.max()`: NaN (here `none`) on an empty series, otherwise the
largest value. -/
def seriesMax (l : List ℚ) : Option ℚ :=
  l.foldl (fun acc x => match acc with
    | none => some x
    | some m => some (max m x)) none

/-- Count of occurrences of `x` in `l`. -/
def countVal (l : List String) (x : String) : Nat := l.count x

/-- `Series.value_counts().index[0]` on a nonempty series: a value of
maximal count (value_counts sorts counts descending with a stable sort, so
among tied counts the first-seen value comes first). -/
def valueCountsTop (l : List String) : String :=
  (l.foldl (fun best x =>
      match best with
      | none => some x
      | some b => if countVal l x > countVal l b then some x else some b)
    none).getD ""

/-- Line 140: `filtered_df['City'].value_counts().index[0] if not
filtered_df.empty else "N/A"`. -/
def mostCommonCity (df : List Record) : String :=
  if ¬ df.isEmpty then valueCountsTop (df.map (·.city)) else "N/A"

/-- Lines 131-140, the six scalar metrics over `filtered_df`. -/
structure Metrics where
  averageAge : Option ℚ
  averageIncome : Option ℚ
  averagePurchase : Option ℚ
  totalPurchases : ℚ
  highestPurchase : Option ℚ
  mostCommonCityVal : String
deriving Repr

/-- The statistics block: means of Age/Income/PurchaseAmount, sum and max of
PurchaseAmount, and the guarded most-common-city expression. -/
def computeMetrics (df : List Record) : Metrics :=
  { averageAge := seriesMean (df.map fun r => (r.age : ℚ))
    averageIncome := seriesMean (df.map (·.income))
    averagePurchase := seriesMean (df.map (·.purchaseAmount))
    totalPurchases := seriesSum (df.map (·.purchaseAmount))
    highestPurchase := seriesMax (df.map (·.purchaseAmount))
    mostCommonCityVal := mostCommonCity df }

/-- Line 156: the bin edges passed to `pd.cut`. -/
def bucketEdges : List Nat := [18, 25, 35, 45, 55, 70]

/-- Line 157: the bucket labels passed to `pd.cut`. -/
def ageGroupLabels : List String := ["18-25", "26-35", "36-45", "46-55", "56-70"]

/-- `pd.cut(x, bins, labels)` with the defaults `right=True`,
`include_lowest=False`: `x` falls in bucket `i` iff
`edges[i] < x ≤ edges[i+1]`; values outside every interval get NaN
(here `none`). -/
def pdCut : List Nat → List String → Nat → Option String
  | lo :: hi :: es, lab :: labs, x =>
      if lo < x ∧ x ≤ hi then some lab else pdCut (hi :: es) labs x
  | _, _, _ => none

/-- Lines 155-157: the `AgeGroup` value `pd.cut` assigns to a record's age. -/
def cutAge (age : Nat) : Option String := pdCut bucketEdges ageGroupLabels age

/-- Insert a string into a sorted duplicate-free list, keeping it sorted and
duplicate-free. -/
def insertUniqueSorted (x : String) : List String → List String
  | [] => [x]
  | y :: ys =>
      if x < y then x :: y :: ys
      else if x = y then y :: ys
      else y :: insertUniqueSorted x ys

/-- The sorted distinct values of a column, as `groupby(sort=True)` orders a
non-categorical grouper's observed values. -/
def sortedUniques (l : List String) : List String :=
  l.foldr insertUniqueSorted []

/-- The distinct `ProductCategory` values present in the view, in the sorted
order `groupby` uses for that level of the result index. -/
def observedCategories (rows : List Record) : List String :=
  sortedUniques (rows.map (·.productCategory))

/-- The member rows of the `(AgeGroup, ProductCategory)` group `(g, c)`:
rows whose age is cut into bucket `g` and whose category is `c` (rows whose
`AgeGroup` is NaN belong to no group — `groupby` drops NaN keys). -/
def groupMembers (rows : List Record) (g c : String) : List Record :=
  rows.filter fun r => cutAge r.age == some g && r.productCategory == c

/-- Line 160:
`filtered_df.groupby(['AgeGroup','ProductCategory'])['PurchaseAmount'].mean().reset_index()`.
`AgeGroup` is a Categorical, and `groupby`'s default `observed=False`
reindexes the result over the cartesian product of all five bucket labels
with the observed `ProductCategory` values, so empty combinations appear
with NaN mean. -/
def age_product_data (rows : List Record) :
    List ((String × String) × Option ℚ) :=
  (ageGroupLabels.map fun g =>
    (observedCategories rows).map fun c =>
      ((g, c), seriesMean ((groupMembers rows g c).map (·.purchaseAmount)))).flatten

/-- Mean of a column as a plain rational (0 on an empty list, which is only
used under a nonempty guard). -/
def listMean (l : List ℚ) : ℚ := l.sum / l.length

/-- Sum of products of deviations of two equal-length columns: the
numerator data of the Pearson coefficient. -/
def scov (xs ys : List ℚ) : ℚ :=
  (List.zipWith (fun a b => (a - listMean xs) * (b - listMean ys)) xs ys).sum

/-- Sum of squared deviations of a column: `scov` of the column with
itself; zero exactly when the column has zero variance. -/
def svar (xs : List ℚ) : ℚ := scov xs xs

/-- One entry of `numeric_df.corr()` (lines 144-145): the Pearson
coefficient of two columns, NaN (`none`) when there are fewer than two data
points or either column has zero variance (pandas' 0/0). -/
noncomputable def corrEntry (xs ys : List ℚ) : Option ℝ :=
  if xs.length < 2 ∨ svar xs = 0 ∨ svar ys = 0 then none
  else some ((scov xs ys : ℝ) / (Real.sqrt (svar xs) * Real.sqrt (svar ys)))

/-- Pandas dtypes of the generated columns. -/
inductive Dtype
  | int64
  | float64
  | object
  | category
deriving DecidableEq, Repr

/-- The columns of the synthesized DataFrame with their dtypes:
`CustomerID` (a range of Python ints) and `Age` (`np.random.randint`) are
int64, `Income` (`np.random.normal`) and `PurchaseAmount`
(`np.random.uniform`) are float64, and the two string columns are object. -/
def baseColumns : List (String × Dtype) :=
  [("CustomerID", Dtype.int64), ("Age", Dtype.int64),
   ("Income", Dtype.float64), ("PurchaseAmount", Dtype.float64),
   ("City", Dtype.object), ("ProductCategory", Dtype.object)]

/-- `DataFrame.select_dtypes(include=...)`: keep the columns whose dtype is
in the include list. -/
def select_dtypes (cols : List (String × Dtype)) (incl : List Dtype) :
    List (String × Dtype) :=
  cols.filter fun c => incl.contains c.2

/-- Line 144: the columns of
`numeric_df = filtered_df.select_dtypes(include=['float64', 'int64'])`
(at this line `filtered_df` still has exactly the six generated columns). -/
def numericColumns : List (String × Dtype) :=
  select_dtypes baseColumns [Dtype.float64, Dtype.int64]

/-- The numeric fields of a record, one per column of `numeric_df`. -/
inductive NumField
  | customerID
  | age
  | income
  | purchaseAmount
deriving DecidableEq, Repr

/-- The rational value a record holds in a numeric column. -/
def NumField.val : NumField → Record → ℚ
  | .customerID, r => (r.customerID : ℚ)
  | .age, r => (r.age : ℚ)
  | .income, r => r.income
  | .purchaseAmount, r => r.purchaseAmount

/-- One numeric column of the filtered view. -/
def colValues (rows : List Record) (f : NumField) : List ℚ :=
  rows.map f.val

/-- Line 145: `corr = numeric_df.corr()`, as a function from a pair of
numeric fields to the matrix entry. -/
noncomputable def corrMatrix (rows : List Record) (f g : NumField) : Option ℝ :=
  corrEntry (colValues rows f) (colValues rows g)

/-- A DataFrame binding in the script: its column list (with dtypes) and
its rows.  Only the six base columns carry row data in `Record`; the
`AgeGroup` column added at line 155 is derivable from `Age` via `cutAge`,
so its presence is tracked in `cols` alone. -/
structure Frame where
  cols : List (String × Dtype)
  rows : List Record
deriving DecidableEq, Repr

/-- Lines 53-59 at the frame level: boolean-mask filtering produces a new
frame with the same columns and the matching rows. -/
def filterFrame (f : Frame) (cr : FilterCriteria) : Frame :=
  ⟨f.cols, applyFilters f.rows cr⟩

/-- Line 155: `filtered_df['AgeGroup'] = pd.cut(...)` adds a categorical
column to the frame in place; the rows are unchanged. -/
def addAgeGroupColumn (f : Frame) : Frame :=
  ⟨f.cols ++ [("AgeGroup", Dtype.category)], f.rows⟩

/-- The script bindings that survive to the end of a run. -/
structure ScriptResult where
  df : Frame
  filtered : Frame
deriving DecidableEq, Repr

/-- The script's data pipeline from the synthesized frame to the end of the
run: filter (lines 53-59), read-only aggregations (metrics, correlation,
pivot inputs), then the in-place `AgeGroup` column assignment (line 155).
`df` is never reassigned, and `filtered_df` is a fresh copy produced by
boolean-mask indexing, so the column assignment touches only `filtered`. -/
def runScript (df0 : Frame) (cr : FilterCriteria) : ScriptResult :=
  let filtered0 := filterFrame df0 cr
  let filtered1 := addAgeGroupColumn filtered0
  ⟨df0, filtered1⟩

/-! ### Claim theorems -/

/-- The age-range predicate of the filter stage, as a proposition. -/
def agePred (cr : FilterCriteria) (r : Record) : Prop :=
  cr.ageMin ≤ r.age ∧ r.age ≤ cr.ageMax

/-- The city predicate: trivially true when the selection is "All". -/
def cityPred (cr : FilterCriteria) (r : Record) : Prop :=
  cr.city = "All" ∨ r.city = cr.city

/-- The product-category predicate: trivially true when the selection is
"All". -/
def catPred (cr : FilterCriteria) (r : Record) : Prop :=
  cr.productCategory = "All" ∨ r.productCategory = cr.productCategory

theorem matchesCriteria_iff (cr : FilterCriteria) (r : Record) :
    matchesCriteria cr r = true ↔ agePred cr r ∧ cityPred cr r ∧ catPred cr r := by
  unfold matchesCriteria agePred cityPred catPred
  simp [and_assoc]

/-- **C1**: the filtered view is a subset of the dataset, and a record of
the dataset is in the filtered view exactly when it satisfies the age-range
predicate, the city predicate (trivial when the selection is "All") and the
product-category predicate (trivial when the selection is "All"); hence a
dataset record outside the view fails at least one predicate. -/
theorem filtered_view_characterization (df : List Record) (cr : FilterCriteria) (r : Record) :
    applyFilters df cr ⊆ df ∧
    (r ∈ applyFilters df cr ↔
      r ∈ df ∧ agePred cr r ∧ cityPred cr r ∧ catPred cr r) := by
  constructor
  · intro x hx
    exact ((mem_applyFilters df cr x).1 hx).1
  · rw [mem_applyFilters, matchesCriteria_iff]

/-- **C9**: the filter stage is idempotent — filtering the filtered view
again with the same criteria returns it unchanged. -/
theorem applyFilters_idempotent (df : List Record) (cr : FilterCriteria) :
    applyFilters (applyFilters df cr) cr = applyFilters df cr := by
  simp only [applyFilters_eq_filter, List.filter_filter]
  exact List.filter_congr fun r _ => Bool.and_self (matchesCriteria cr r)

theorem choice_mem (l : List String) (x : Nat) (hl : l ≠ []) : choice l x ∈ l := by
  unfold choice
  have hlen : 0 < l.length := List.length_pos.2 hl
  have hx : x % l.length < l.length := Nat.mod_lt _ hlen
  rw [List.getD_eq_getElem l "" hx]
  exact List.getElem_mem hx

/-- **C7**: for every positive row count, the synthesized dataset has
exactly that many records, its CustomerID column is the sequence 1, 2, ...
(unique and sequential from 1), every age lies in [18, 70), every city is
one of the five `cityChoices`, and every product category is one of the
five `productChoices`. -/
theorem simulate_dataset_spec (n : Nat) (rs : RandomState) (h : 0 < n) :
    (simulate_dataset n rs).length = n ∧
    (simulate_dataset n rs).map (·.customerID) = List.range' 1 n ∧
    ((simulate_dataset n rs).map (·.customerID)).Nodup ∧
    ∀ r ∈ simulate_dataset n rs,
      18 ≤ r.age ∧ r.age < 70 ∧
      r.city ∈ cityChoices ∧ r.productCategory ∈ productChoices := by
  have hmap : (simulate_dataset n rs).map (·.customerID) = List.range' 1 n := by
    rw [List.range'_eq_map_range]
    simp only [simulate_dataset, List.map_map]
    exact List.map_congr_left fun i _ => by simp [Nat.add_comm]
  refine ⟨by simp [simulate_dataset], hmap, ?_, ?_⟩
  · rw [hmap]; exact List.nodup_range' _ _
  · intro r hr
    simp only [simulate_dataset, List.mem_map, List.mem_range] at hr
    obtain ⟨i, _, rfl⟩ := hr
    refine ⟨Nat.le_add_right _ _, ?_, ?_, ?_⟩
    · show randint 18 70 (rs.ages i) < 70
      have : rs.ages i % (70 - 18) < 70 - 18 := Nat.mod_lt _ (by omega)
      unfold randint
      omega
    · exact choice_mem cityChoices (rs.cities i) (by simp [cityChoices])
    · exact choice_mem productChoices (rs.categories i) (by simp [productChoices])

/-- Concrete random streams used to instantiate witness statements. -/
def rsW : RandomState :=
  { ages := fun i => i
    incomes := fun i => (i : ℚ)
    purchases := fun i => (i : ℚ) + 10
    cities := fun i => i
    categories := fun i => i }

/-- Witness for **C7** at `num_rows = 3` with the concrete streams `rsW`. -/
theorem simulate_dataset_spec_witness :
    0 < 3 ∧
    ((simulate_dataset 3 rsW).length = 3 ∧
     (simulate_dataset 3 rsW).map (·.customerID) = List.range' 1 3 ∧
     ((simulate_dataset 3 rsW).map (·.customerID)).Nodup ∧
     ∀ r ∈ simulate_dataset 3 rsW,
       18 ≤ r.age ∧ r.age < 70 ∧
       r.city ∈ cityChoices ∧ r.productCategory ∈ productChoices) :=
  ⟨by decide, simulate_dataset_spec 3 rsW (by decide)⟩

/-- **C5 counterexample**: `simulate_dataset` with `num_rows = 0` silently
returns an empty dataset — there is no input validation rejecting a
non-positive row count. -/
theorem simulate_dataset_zero_rows_silent :
    simulate_dataset_int 0 rsW = Except.ok [] := by
  simp [simulate_dataset_int, simulate_dataset]

/-- **C5 amended**: a negative row count produces an error (numpy rejects
the negative array size), but `num_rows = 0` is not rejected: it silently
returns an empty dataset. -/
theorem simulate_dataset_int_validation (n : Int) (rs : RandomState) (h : n < 0) :
    simulate_dataset_int n rs = Except.error "negative dimensions are not allowed" ∧
    simulate_dataset_int 0 rs = Except.ok [] := by
  constructor
  · unfold simulate_dataset_int
    rw [if_pos h]
  · unfold simulate_dataset_int
    rw [if_neg (by omega)]
    simp [simulate_dataset]

/-- Witness for the amended **C5** at `num_rows = -1`. -/
theorem simulate_dataset_int_validation_witness :
    (-1 : Int) < 0 ∧
    (simulate_dataset_int (-1) rsW = Except.error "negative dimensions are not allowed" ∧
     simulate_dataset_int 0 rsW = Except.ok []) :=
  ⟨by decide, simulate_dataset_int_validation (-1) rsW (by decide)⟩

/-- A concrete record (age 30) used in counterexamples and witnesses. -/
def rA : Record :=
  { customerID := 1, age := 30, income := 50000, purchaseAmount := 100,
    city := "Tokyo", productCategory := "Electronics" }

/-- A one-record dataset whose only age, 30, misses the range below. -/
def ds4 : List Record := [rA]

/-- Criteria whose age range [40, 50] matches no record of `ds4`. -/
def cr4 : FilterCriteria :=
  { ageMin := 40, ageMax := 50, city := "All", productCategory := "All" }

/-- **C4 counterexample**: on an empty filtered view the Total Purchases
metric is the ordinary number 0 — pandas `Series.sum()` of an empty series
— not a NaN/undefined "no data" value as the claim states for every
numeric metric. -/
theorem empty_view_total_purchases_zero :
    applyFilters ds4 cr4 = [] ∧
    (computeMetrics (applyFilters ds4 cr4)).totalPurchases = 0 := by
  constructor <;> rfl

/-- **C4 amended**: on an empty filtered view no metric computation
errors; the three averages and the highest purchase are NaN (`none`), the
most-common-city metric is the sentinel "N/A", but Total Purchases is 0
(the sum of an empty series), not NaN. -/
theorem empty_view_metrics (df : List Record) (cr : FilterCriteria)
    (h : applyFilters df cr = []) :
    (computeMetrics (applyFilters df cr)).averageAge = none ∧
    (computeMetrics (applyFilters df cr)).averageIncome = none ∧
    (computeMetrics (applyFilters df cr)).averagePurchase = none ∧
    (computeMetrics (applyFilters df cr)).totalPurchases = 0 ∧
    (computeMetrics (applyFilters df cr)).highestPurchase = none ∧
    (computeMetrics (applyFilters df cr)).mostCommonCityVal = "N/A" := by
  rw [h]
  exact ⟨rfl, rfl, rfl, rfl, rfl, rfl⟩

/-- Witness for the amended **C4** on the concrete empty view
`applyFilters ds4 cr4`. -/
theorem empty_view_metrics_witness :
    applyFilters ds4 cr4 = [] ∧
    ((computeMetrics (applyFilters ds4 cr4)).averageAge = none ∧
     (computeMetrics (applyFilters ds4 cr4)).averageIncome = none ∧
     (computeMetrics (applyFilters ds4 cr4)).averagePurchase = none ∧
     (computeMetrics (applyFilters ds4 cr4)).totalPurchases = 0 ∧
     (computeMetrics (applyFilters ds4 cr4)).highestPurchase = none ∧
     (computeMetrics (applyFilters ds4 cr4)).mostCommonCityVal = "N/A") :=
  ⟨rfl, empty_view_metrics ds4 cr4 rfl⟩

/-- **C2 counterexample**: `pd.cut` with its default `right=True` and
`include_lowest=False` assigns age 18 to no bucket at all (NaN), and
assigns age 25 to the first bucket — the buckets are right-closed
`(edge, edge]`, not the half-open `[edge, edge)` buckets of the claim,
under which 18 would be in the first bucket and 25 in the second. -/
theorem cutAge_boundaries :
    cutAge 18 = none ∧ cutAge 25 = some "18-25" := by decide

/-- **C2 amended**: the age buckets are left-open right-closed intervals
`(18,25], (25,35], (35,45], (45,55], (55,70]`; they partition `(18, 70]`
with no gaps or overlaps, an age is assigned a bucket exactly when
`18 < age ≤ 70`, and in particular age 18 is assigned to no bucket. -/
theorem cutAge_intervals (a : Nat) :
    (cutAge a = some "18-25" ↔ 18 < a ∧ a ≤ 25) ∧
    (cutAge a = some "26-35" ↔ 25 < a ∧ a ≤ 35) ∧
    (cutAge a = some "36-45" ↔ 35 < a ∧ a ≤ 45) ∧
    (cutAge a = some "46-55" ↔ 45 < a ∧ a ≤ 55) ∧
    (cutAge a = some "56-70" ↔ 55 < a ∧ a ≤ 70) ∧
    ((cutAge a).isSome ↔ 18 < a ∧ a ≤ 70) := by
  unfold cutAge bucketEdges ageGroupLabels
  simp only [pdCut]
  split_ifs <;> simp_all <;> omega

/-- The synthesized frame for the frame-effect counterexample. -/
def df6 : Frame := ⟨baseColumns, [rA]⟩

/-- Criteria that keep every record (full age range, both selections
"All"). -/
def cr6 : FilterCriteria :=
  { ageMin := 18, ageMax := 70, city := "All", productCategory := "All" }

/-- **C6 counterexample**: after the script runs, the filtered view's
columns differ from the columns it had when the filter stage produced it —
line 155 added the `AgeGroup` column in place. -/
theorem script_mutates_filtered_columns :
    (runScript df6 cr6).filtered.cols ≠ (filterFrame df6 cr6).cols := by decide

/-- **C6 amended**: the aggregations leave the dataset unchanged and leave
the filtered view's rows unchanged, but the pivot stage appends an
`AgeGroup` column to the filtered view in place, so its final columns are
the filter-stage columns plus `AgeGroup`. -/
theorem runScript_frame_effects (df0 : Frame) (cr : FilterCriteria) :
    (runScript df0 cr).df = df0 ∧
    (runScript df0 cr).filtered.rows = (filterFrame df0 cr).rows ∧
    (runScript df0 cr).filtered.cols =
      (filterFrame df0 cr).cols ++ [("AgeGroup", Dtype.category)] :=
  ⟨rfl, rfl, rfl⟩

theorem mem_insertUniqueSorted (x y : String) (l : List String) :
    y ∈ insertUniqueSorted x l ↔ y = x ∨ y ∈ l := by
  induction l with
  | nil => simp [insertUniqueSorted]
  | cons z zs ih =>
      unfold insertUniqueSorted
      split_ifs with h1 h2
      · simp
      · subst h2; simp
      · simp [ih]; tauto

theorem mem_sortedUniques (x : String) (l : List String) :
    x ∈ sortedUniques l ↔ x ∈ l := by
  unfold sortedUniques
  induction l with
  | nil => simp
  | cons y ys ih => simp [mem_insertUniqueSorted, ih]

theorem mem_observedCategories (rows : List Record) (c : String) :
    c ∈ observedCategories rows ↔ ∃ r ∈ rows, r.productCategory = c := by
  unfold observedCategories
  rw [mem_sortedUniques]
  simp [List.mem_map]

theorem mem_age_product_data (rows : List Record) (g c : String) (v : Option ℚ) :
    ((g, c), v) ∈ age_product_data rows ↔
      g ∈ ageGroupLabels ∧ c ∈ observedCategories rows ∧
      v = seriesMean ((groupMembers rows g c).map (·.purchaseAmount)) := by
  unfold age_product_data
  simp only [List.mem_flatten, List.mem_map]
  constructor
  · rintro ⟨sub, ⟨g', hg', rfl⟩, hsub⟩
    obtain ⟨c', hc', heq⟩ := List.mem_map.1 hsub
    obtain ⟨⟨rfl, rfl⟩, rfl⟩ : (g' = g ∧ c' = c) ∧ _ = v := by
      simpa [Prod.ext_iff] using heq
    exact ⟨hg', hc', rfl⟩
  · rintro ⟨hg, hc, rfl⟩
    exact ⟨_, ⟨g, hg, rfl⟩, List.mem_map.2 ⟨c, hc, rfl⟩⟩

/-- A one-record view whose only record has age 30 and category
Electronics. -/
def rows3 : List Record := [rA]

/-- **C3 counterexample**: grouping a one-record view (age 30,
Electronics) still yields five output rows — one per `AgeGroup` category —
including the zero-member combination ("18-25", "Electronics") with NaN
mean, because `AgeGroup` is categorical and `groupby` defaults to
`observed=False`. -/
theorem pivot_lists_empty_groups :
    ((("18-25", "Electronics"), (none : Option ℚ)) ∈ age_product_data rows3) ∧
    (age_product_data rows3).length = 5 := by decide

/-- **C3 amended**: the group-by output has exactly one entry per pair in
the cartesian product of all five age-bucket labels with the distinct
product categories present in the view (so zero-member bucket×category
pairs do appear, carrying a NaN mean); the category dimension alone is
limited to the categories actually present, so a view with only
Electronics and Books yields entries for exactly those two categories. -/
theorem age_product_data_keys (rows : List Record) (g c : String) :
    ((g, c) ∈ (age_product_data rows).map Prod.fst ↔
      g ∈ ageGroupLabels ∧ c ∈ observedCategories rows) ∧
    (∀ v, ((g, c), v) ∈ age_product_data rows →
      v = seriesMean ((groupMembers rows g c).map (·.purchaseAmount))) ∧
    (c ∈ observedCategories rows ↔ ∃ r ∈ rows, r.productCategory = c) := by
  refine ⟨?_, ?_, mem_observedCategories rows c⟩
  · constructor
    · intro hm
      obtain ⟨⟨⟨g₀, c₀⟩, v⟩, hmem, hfst⟩ := List.mem_map.1 hm
      obtain ⟨rfl, rfl⟩ : g₀ = g ∧ c₀ = c := by simpa [Prod.ext_iff] using hfst
      have := (mem_age_product_data rows g₀ c₀ v).1 hmem
      exact ⟨this.1, this.2.1⟩
    · rintro ⟨hg, hc⟩
      exact List.mem_map.2
        ⟨((g, c), seriesMean ((groupMembers rows g c).map (·.purchaseAmount))),
          (mem_age_product_data rows g c _).2 ⟨hg, hc, rfl⟩, rfl⟩
  · intro v hv
    exact ((mem_age_product_data rows g c v).1 hv).2.2

theorem sum_zipWith_dev_comm (p q : ℚ) (xs ys : List ℚ) :
    (List.zipWith (fun a b => (a - p) * (b - q)) xs ys).sum
      = (List.zipWith (fun a b => (a - q) * (b - p)) ys xs).sum := by
  induction xs generalizing ys with
  | nil => cases ys <;> simp
  | cons a as ih =>
      cases ys with
      | nil => simp
      | cons b bs => simp [ih, mul_comm]

theorem scov_comm (xs ys : List ℚ) : scov xs ys = scov ys xs := by
  unfold scov
  exact sum_zipWith_dev_comm (listMean xs) (listMean ys) xs ys

theorem svar_nonneg (xs : List ℚ) : 0 ≤ svar xs := by
  unfold svar scov
  generalize listMean xs = m
  induction xs with
  | nil => simp
  | cons a as ih => simpa using add_nonneg (mul_self_nonneg (a - m)) ih

theorem svar_of_short (xs : List ℚ) (h : xs.length < 2) : svar xs = 0 := by
  match xs with
  | [] => rfl
  | [x] => simp [svar, scov, listMean]
  | a :: b :: rest => exact absurd h (by simp)

/-- **C8**: the correlation matrix over the view's numeric fields is
symmetric; the diagonal entry of a field is 1 exactly when the field has
nonzero variance (and NaN otherwise); and an entry is NaN exactly when the
view has fewer than two records or one of its two fields has zero
variance. -/
theorem corrMatrix_props (rows : List Record) (f g : NumField) :
    corrMatrix rows f g = corrMatrix rows g f ∧
    corrMatrix rows f f =
      (if svar (colValues rows f) = 0 then none else some (1 : ℝ)) ∧
    (corrMatrix rows f g = none ↔
      rows.length < 2 ∨ svar (colValues rows f) = 0 ∨ svar (colValues rows g) = 0) := by
  have hlenf : (colValues rows f).length = rows.length := by simp [colValues]
  have hleng : (colValues rows g).length = rows.length := by simp [colValues]
  refine ⟨?_, ?_, ?_⟩
  · unfold corrMatrix corrEntry
    have hc : ((colValues rows f).length < 2 ∨
          svar (colValues rows f) = 0 ∨ svar (colValues rows g) = 0)
        ↔ ((colValues rows g).length < 2 ∨
          svar (colValues rows g) = 0 ∨ svar (colValues rows f) = 0) := by
      rw [hlenf, hleng]; tauto
    by_cases h : (colValues rows f).length < 2 ∨
        svar (colValues rows f) = 0 ∨ svar (colValues rows g) = 0
    · rw [if_pos h, if_pos (hc.mp h)]
    · rw [if_neg h, if_neg fun h' => h (hc.mpr h')]
      rw [scov_comm (colValues rows f) (colValues rows g),
        mul_comm (Real.sqrt (svar (colValues rows f)))
          (Real.sqrt (svar (colValues rows g)))]
  · unfold corrMatrix corrEntry
    by_cases hv : svar (colValues rows f) = 0
    · rw [if_pos (Or.inr (Or.inl hv)), if_pos hv]
    · have hlen2 : ¬ (colValues rows f).length < 2 :=
        fun hl => hv (svar_of_short _ hl)
      rw [if_neg (by tauto), if_neg hv]
      congr 1
      have h0 : (0 : ℝ) ≤ ((svar (colValues rows f) : ℚ) : ℝ) := by
        exact_mod_cast svar_nonneg _
      rw [Real.mul_self_sqrt h0]
      have hs : scov (colValues rows f) (colValues rows f)
          = svar (colValues rows f) := rfl
      rw [hs]
      exact div_self (by exact_mod_cast hv)
  · unfold corrMatrix corrEntry
    rw [hlenf]
    by_cases h : rows.length < 2 ∨
        svar (colValues rows f) = 0 ∨ svar (colValues rows g) = 0
    · rw [if_pos h]; simp [h]
    · rw [if_neg h]; simp [h]

/-- **C10**: the numeric columns entering `numeric_df.corr()` are exactly
CustomerID, Age, Income and PurchaseAmount — the identifier column is
included as an int64 field — while the object columns City and
ProductCategory are excluded. -/
theorem numericColumns_exact :
    numericColumns.map Prod.fst = ["CustomerID", "Age", "Income", "PurchaseAmount"] ∧
    "CustomerID" ∈ numericColumns.map Prod.fst ∧
    "City" ∉ numericColumns.map Prod.fst ∧
    "ProductCategory" ∉ numericColumns.map Prod.fst := by decide

end App
